import Mathlib

/-!
A shallow embedding of the evcxr REPL front end
(`src/evcxr_repl/src/bin/evcxr.rs`) and proofs about it.

The execution engine (`CommandContext`), the line editor (rustyline) and
the hosted-language parser (the `syn` crate) are external collaborators:
they are modelled as abstract oracles or, where a claim needs their
behaviour, by definitions modelled from the specification.

Terminal output is modelled as a list of events, one event per print
call (colour escape codes are dropped: they are presentation only and
rendered text is compared as plain text).
-/

namespace Evcxr

/-- The fixed prompt string `const PROMPT: &str = ">> ";`. -/
def PROMPT : String := ">> "

/-- A diagnostic span: start and end column (`usize` in the source,
modelled as `Nat`). -/
structure Span where
  start_column : Nat
  end_column : Nat
deriving DecidableEq, Repr

/-- A spanned message: an optional span plus a label. -/
structure SpannedMessage where
  span : Option Span
  label : String
deriving DecidableEq, Repr

/-- A compilation diagnostic as consumed by `Repl::display_errors`:
origin flag, spanned messages, overall message, help strings, optional
extra hint, raw rendered fallback. -/
structure CompilationError where
  is_from_user_code : Bool
  spanned_messages : List SpannedMessage
  message : String
  help : List String
  evcxr_extra_hint : Option String
  rendered : String
deriving DecidableEq, Repr

/-- One timing phase of a successful execution. -/
structure Phase where
  name : String
  duration_ms : Nat
deriving DecidableEq, Repr

/-- A successful engine result: optional plain-text representation,
optional total duration, and the phase breakdown. -/
structure EvalOutput where
  text_plain : Option String
  timing_ms : Option Nat
  phases : List Phase
deriving DecidableEq, Repr

/-- The engine's error type: compilation diagnostics or any other
error, carrying its display text. -/
inductive EngineError where
  | CompilationErrors (errors : List CompilationError)
  | Other (message : String)
deriving DecidableEq, Repr

/-- Result of one synchronous engine call. -/
abbrev EngineResult := Except EngineError EvalOutput

/-- Whether an engine call succeeded. -/
def isOkResult : EngineResult → Bool
  | Except.ok _ => true
  | Except.error _ => false

/-- One terminal output event: a chunk printed to stdout or stderr. -/
inductive OutEvent where
  | out (s : String)
  | err (s : String)
deriving DecidableEq, Repr

/-- The stdout portion of an event list, concatenated. -/
def outText : List OutEvent → String
  | [] => ""
  | OutEvent.out s :: rest => s ++ outText rest
  | OutEvent.err _ :: rest => outText rest

/-- The two IDE-mode sentinel control bytes. -/
def isSentinelChar (c : Char) : Bool := c = '\x01' || c = '\x02'

/-- Number of sentinel bytes occurring in a string. -/
def sentinelCount (s : String) : Nat := s.toList.countP isSentinelChar

/-! ## Input validation (`impl Validator for RLHelper`) -/

/-- rustyline's validation result type (the source only ever produces
the first two constructors). -/
inductive ValidationResult where
  | valid (msg : Option String)
  | incomplete
  | invalid (msg : Option String)
deriving DecidableEq, Repr

/-- The wrapping `format!("fn evcxr() {{ {} }}", line.as_str())`. -/
def wrapAsFnBody (line : String) : String := "fn evcxr() \x7b " ++ line ++ " \x7d"

/-- `RLHelper::validate`, with the hosted-language statement parse
(`syn::parse_str::<syn::Stmt>`) abstracted as an oracle `parses`. -/
def validate (parses : String → Bool) (line : String) : ValidationResult :=
  if line.startsWith ":" || parses (wrapAsFnBody line) then
    ValidationResult.valid none
  else
    ValidationResult.incomplete

/-- Modelled from the spec: the hosted-language single-statement parse
performed by the external `syn` crate, which is not part of this
repository's sources. Only the fact the spec fixes is modelled: a
synthetic function with an empty body parses as a single statement
(§4.3, the empty-buffer edge case), so the model accepts exactly the
wrapped empty buffer. -/
def hostedParse (s : String) : Bool := s == wrapAsFnBody ""

/-! ## Diagnostic rendering (`Repl::display_errors`) -/

/-- A run of `n` spaces, as printed by
`for _ in 1..span.start_column + PROMPT.len() { print!(" "); }`. -/
def spaceRun (n : Nat) : String := String.mk (List.replicate n ' ')

/-- The caret run built by
`for _ in span.start_column..span.end_column { carrots.push('^'); }`:
the Rust range is empty when `end_column <= start_column`, which the
truncated `Nat` subtraction mirrors. -/
def caretRun (span : Span) : String :=
  String.mk (List.replicate (span.end_column - span.start_column) '^')

/-- The full caret line printed for a spanned message that has a span:
the space loop runs over the Rust range `1..start_column + PROMPT.len()`,
i.e. `start_column + PROMPT.len() - 1` iterations, then the carets, then
`println!(" {}", label)`. -/
def caretLine (span : Span) (label : String) : String :=
  spaceRun ((span.start_column + PROMPT.length) - 1) ++ caretRun span ++ " " ++ label

/-- Rendering of one spanned message inside a user-code diagnostic. -/
def renderSpanned (sm : SpannedMessage) : List OutEvent :=
  match sm.span with
  | some span => [OutEvent.out (caretLine span sm.label ++ "\n")]
  | none => [OutEvent.out (sm.label ++ "\n")]

/-- The fixed notice printed for diagnostics not from user code. -/
def generatedCodeNotice : String :=
  "A compilation error was found in code we generated.\n" ++
  "Ideally this should't happen. Type :last_error_json to see details.\n"

/-- Rendering of one diagnostic, per the two branches of
`Repl::display_errors`. -/
def displayError (e : CompilationError) : List OutEvent :=
  if e.is_from_user_code then
    List.flatten (e.spanned_messages.map renderSpanned) ++
    [OutEvent.out (e.message ++ "\n")] ++
    e.help.map (fun h => OutEvent.out ("help: " ++ h ++ "\n")) ++
    (match e.evcxr_extra_hint with
     | some hint => [OutEvent.out (hint ++ "\n")]
     | none => [])
  else
    [OutEvent.out (generatedCodeNotice ++ e.rendered ++ "\n")]

/-- `Repl::display_errors`: render every diagnostic in order. -/
def display_errors (errors : List CompilationError) : List OutEvent :=
  List.flatten (errors.map displayError)

/-! ## The controller (`Repl`) -/

/-- Session state: the engine handle is external, so only the mode flag
is carried. -/
structure Repl where
  ide_mode : Bool
deriving DecidableEq, Repr

/-- The IDE-mode success/failure marker `success_marker` of
`Repl::execute`: control byte 1 for success, control byte 2 for
failure. -/
def sentinel (success : Bool) : String := if success then "\x01" else "\x02"

/-- Terminal output of the success branch of `Repl::execute`. -/
def okOutput (o : EvalOutput) : List OutEvent :=
  (match o.text_plain with
   | some text => [OutEvent.out (text ++ "\n")]
   | none => []) ++
  (match o.timing_ms with
   | some duration =>
       OutEvent.out ("Took " ++ toString duration ++ "ms\n") ::
       o.phases.map (fun p =>
         OutEvent.out ("  " ++ p.name ++ ": " ++ toString p.duration_ms ++ "ms\n"))
   | none => [])

/-- `Repl::execute` given the result of the engine call on the snippet:
print the result or error, then in IDE mode `print!` exactly the
sentinel marker (no newline). -/
def execute (ide_mode : Bool) (result : EngineResult) : List OutEvent :=
  (match result with
   | Except.ok output => okOutput output
   | Except.error (EngineError.CompilationErrors errors) => display_errors errors
   | Except.error (EngineError.Other msg) => [OutEvent.err (msg ++ "\n")]) ++
  (if ide_mode then [OutEvent.out (sentinel (isOkResult result))] else [])

/-- Result of `Repl::new`: the constructed session, the engine calls it
issued, and the terminal output it produced. -/
structure NewResult where
  repl : Repl
  engineCalls : List String
  output : List OutEvent
deriving DecidableEq, Repr

/-- `Repl::new`: construct the session, then run
`repl.execute(":load_config")`. The engine is an oracle mapping a
snippet to its result. -/
def Repl.new (ide_mode : Bool) (engine : String → EngineResult) : NewResult :=
  { repl := { ide_mode := ide_mode }
    engineCalls := [":load_config"]
    output := execute ide_mode (engine ":load_config") }

/-! ## Output forwarder (`send_output`) -/

/-- The body of one forwarder thread, given the lines the channel
delivers before it closes and an oracle saying whether each
`writeln!` succeeds. The loop relays `line ++ "\n"` per received line
and breaks out (silently) on the first failed write; channel closure is
the end of the list. Returns the chunks actually written. -/
def send_output (writeOk : String → Bool) : List String → List String
  | [] => []
  | line :: rest =>
      if writeOk (line ++ "\n") then
        (line ++ "\n") :: send_output writeOk rest
      else
        []

/-! ## The main loop and session (`main`) -/

/-- One result of a `readline` call, mirroring
`rustyline::Result<String>` as matched in `main`. -/
inductive ReadEvent where
  | line (s : String)
  | interrupted
  | eof
  | other (msg : String)
deriving DecidableEq, Repr

/-- How the main loop ended. -/
inductive LoopExit where
  | eof
  | fatal (msg : String)
  | pending
deriving DecidableEq, Repr

/-- State after running (a prefix of) the main loop. -/
structure LoopResult where
  history : List String
  output : List OutEvent
  exit : LoopExit
deriving DecidableEq, Repr

/-- The `loop` in `main`, driven by the sequence of readline results:
`Ok(line)` appends to history and executes the snippet; `Interrupted`
prints the notice and continues; `Eof` breaks gracefully; any other
error prints it and breaks. `LoopExit.pending` marks an exhausted event
list (the real loop would still be blocked reading). -/
def mainLoop (engine : String → EngineResult) (ide_mode : Bool) :
    List String → List ReadEvent → LoopResult
  | history, [] => { history := history, output := [], exit := LoopExit.pending }
  | history, ReadEvent.line s :: rest =>
      let r := mainLoop engine ide_mode (history ++ [s]) rest
      { r with output := execute ide_mode (engine s) ++ r.output }
  | history, ReadEvent.interrupted :: rest =>
      let r := mainLoop engine ide_mode history rest
      { r with output := OutEvent.out "CTRL-C\n" :: r.output }
  | history, ReadEvent.eof :: _ =>
      { history := history, output := [], exit := LoopExit.eof }
  | history, ReadEvent.other msg :: _ =>
      { history := history
        output := [OutEvent.err ("Error: " ++ msg ++ "\n")]
        exit := LoopExit.fatal msg }

/-- Modelled from the spec: rustyline's `load_history` (external to this
repository) fills the in-memory history with the file's entries, one
line per entry, in stored order (§4.6, §6 history file format). -/
def loadHistory (file : List String) : List String := file

/-- Modelled from the spec: rustyline's `save_history` (external to this
repository) writes the in-memory history back to the file, one line per
entry, in insertion order (§4.6, §6 history file format). -/
def saveHistory (history : List String) : List String := history

/-- The startup banner `println!` in `main`. -/
def banner : String := "Welcome to evcxr. For help, type :help\n"

/-- Result of one whole session. -/
structure SessionResult where
  output : List OutEvent
  savedHistory : List String
  exit : LoopExit
deriving DecidableEq, Repr

/-- One session of `main` (engine construction assumed to succeed):
print the banner, run `Repl::new` (which executes `:load_config`), load
the history file, run the loop over the readline events, save history. -/
def mainSession (ide_mode : Bool) (engine : String → EngineResult)
    (historyFile : List String) (events : List ReadEvent) : SessionResult :=
  let n := Repl.new ide_mode engine
  let r := mainLoop engine n.repl.ide_mode (loadHistory historyFile) events
  { output := OutEvent.out banner :: n.output ++ r.output
    savedHistory := saveHistory r.history
    exit := r.exit }

/-- Number of leading space characters of a rendered line. -/
def leadingSpaceCount (s : String) : Nat :=
  (s.toList.takeWhile fun c => c = ' ').length

/-- Number of caret characters in a rendered line. -/
def caretCount (s : String) : Nat := s.toList.count '^'

/-! ## Helper lemmas -/

theorem toList_append (s t : String) : (s ++ t).toList = s.toList ++ t.toList := rfl

theorem sentinelCount_append (s t : String) :
    sentinelCount (s ++ t) = sentinelCount s + sentinelCount t := by
  simp [sentinelCount, toList_append, List.countP_append]

theorem outText_append (a b : List OutEvent) :
    outText (a ++ b) = outText a ++ outText b := by
  induction a with
  | nil => simp [outText]
  | cons e rest ih => cases e <;> simp [outText, ih, String.append_assoc]

theorem mainLoop_history_lines (engine : String → EngineResult) (ide_mode : Bool)
    (lines : List String) (history : List String) :
    (mainLoop engine ide_mode history
        (lines.map ReadEvent.line ++ [ReadEvent.eof])).history = history ++ lines := by
  induction lines generalizing history with
  | nil => simp [mainLoop]
  | cons l rest ih => simp [mainLoop, ih (history ++ [l])]

theorem execute_true_split (result : EngineResult) :
    execute true result =
      execute false result ++ [OutEvent.out (sentinel (isOkResult result))] := by
  cases result with
  | ok o => simp [execute, isOkResult]
  | error e => cases e <;> simp [execute, isOkResult]

/-! ## Claim theorems -/

/-- C3: for every parse oracle and every input buffer, `validate`
returns `Complete` (rustyline `Valid(None)`) exactly when the buffer
begins with the command-prefix character or the buffer wrapped as a
synthetic function body parses as a single statement; in every other
case it returns `Incomplete`, and it never returns a hard failure
(`Invalid`). -/
theorem validate_complete_iff (parses : String → Bool) (line : String) :
    (validate parses line = ValidationResult.valid none ↔
      (line.startsWith ":" = true ∨ parses (wrapAsFnBody line) = true)) ∧
    (validate parses line = ValidationResult.incomplete ↔
      ¬(line.startsWith ":" = true ∨ parses (wrapAsFnBody line) = true)) ∧
    (∀ m, validate parses line ≠ ValidationResult.invalid m) := by
  by_cases h : (line.startsWith ":" || parses (wrapAsFnBody line)) = true
  · have hor := Bool.or_eq_true _ _ ▸ h
    refine ⟨⟨fun _ => hor, fun _ => ?_⟩, ⟨fun hv => ?_, fun hc => absurd hor hc⟩, fun m hv => ?_⟩
    · simp [validate, h]
    · simp [validate, h] at hv
    · simp [validate, h] at hv
  · have hor : ¬(line.startsWith ":" = true ∨ parses (wrapAsFnBody line) = true) := by
      simpa [Bool.or_eq_true] using h
    refine ⟨⟨fun hv => ?_, fun hc => absurd hc hor⟩, ⟨fun _ => hor, fun _ => ?_⟩,
      fun m hv => ?_⟩
    · simp [validate, h] at hv
    · simp [validate, h]
    · simp [validate, h] at hv

/-- C5: `validate` on the empty buffer returns `Complete` (the empty
buffer does not begin with the command prefix, and its wrapping as a
synthetic function body parses as a single statement, per the
spec-modelled hosted-language parser), so a blank Enter is dispatched
rather than triggering a continuation prompt. -/
theorem validate_empty_complete :
    validate hostedParse "" = ValidationResult.valid none := rfl

/-- C2: with IDE mode enabled, `Repl::execute` emits, after its normal
processing output, exactly one extra sentinel byte as its final print
(a one-byte chunk with no trailing separator), and that byte is the
failure sentinel exactly when the engine call returned an error. -/
theorem execute_ide_sentinel (result : EngineResult) :
    execute true result =
      execute false result ++ [OutEvent.out (sentinel (isOkResult result))] ∧
    (sentinel (isOkResult result)).length = 1 ∧
    (sentinel (isOkResult result) = "\x02" ↔ isOkResult result = false) ∧
    sentinelCount (outText (execute true result)) =
      sentinelCount (outText (execute false result)) + 1 := by
  have hsplit := execute_true_split result
  refine ⟨hsplit, ?_, ?_, ?_⟩
  · cases h : isOkResult result <;> simp [sentinel] <;> decide
  · cases h : isOkResult result <;> simp [sentinel]
  · rw [hsplit, outText_append, sentinelCount_append]
    cases h : isOkResult result <;> simp [sentinel, outText] <;> decide

/-- C4 counterexample: when the engine fails the startup
`:load_config` pseudo-command, `Repl::new` prints the error to the
error stream (through the normal `execute` path), so the error is
surfaced to the user, contradicting the claim that it is ignored and
not surfaced. -/
theorem load_config_error_surfaced :
    (Repl.new false (fun _ => Except.error (EngineError.Other "boom"))).output =
      [OutEvent.err "boom\n"] ∧
    (Repl.new false (fun _ => Except.error (EngineError.Other "boom"))).output ≠ [] := by
  constructor
  · simp [Repl.new, execute]
  · simp [Repl.new, execute]

/-- C4 (amended): immediately after constructing the engine handle,
`Repl::new` issues exactly one internal pseudo-command,
`:load_config`; its failure never fails construction (the session is
returned regardless), but any error is rendered to the user through
the normal `execute` error path rather than suppressed. -/
theorem repl_new_load_config (ide_mode : Bool) (engine : String → EngineResult) :
    (Repl.new ide_mode engine).engineCalls = [":load_config"] ∧
    (Repl.new ide_mode engine).repl = { ide_mode := ide_mode } ∧
    (Repl.new ide_mode engine).output = execute ide_mode (engine ":load_config") ∧
    (∀ m, engine ":load_config" = Except.error (EngineError.Other m) →
      (Repl.new false engine).output = [OutEvent.err (m ++ "\n")]) := by
  refine ⟨rfl, rfl, rfl, fun m hm => ?_⟩
  simp [Repl.new, execute, hm]

/-- C1 counterexample: for a span with `start_column = 4`,
`end_column = 7` and prompt width `3` (`PROMPT.length = 3`), the
rendered caret line has exactly `6` leading spaces, not the
`4 + 3 = 7` the claim states. -/
theorem caret_line_seven_spaces_false :
    leadingSpaceCount (caretLine { start_column := 4, end_column := 7 } "e") = 6 ∧
    (6 : Nat) ≠ 4 + PROMPT.length := by
  constructor
  · rfl
  · decide

/-- C1 (amended): for every spanned message with a span, the rendered
caret line is leading spaces numbering `start_column + prompt_width - 1`
(the space loop runs over the Rust range `1..start_column + PROMPT.len()`),
followed by `end_column - start_column` caret characters, a space, and
the message label; in particular, for span `(start=4, end=7)` and
prompt width `3` the line has exactly `6` leading spaces followed by
exactly `3` carets. -/
theorem caret_line_spec (span : Span) (label : String) :
    (caretLine span label).toList =
      List.replicate ((span.start_column + PROMPT.length) - 1) ' ' ++
        (List.replicate (span.end_column - span.start_column) '^' ++
          (' ' :: label.toList)) ∧
    renderSpanned { span := some span, label := label } =
      [OutEvent.out (caretLine span label ++ "\n")] ∧
    PROMPT.length = 3 ∧
    leadingSpaceCount (caretLine { start_column := 4, end_column := 7 } "e") =
      (4 + PROMPT.length) - 1 ∧
    caretCount (caretLine { start_column := 4, end_column := 7 } "e") = 7 - 4 := by
  refine ⟨?_, rfl, rfl, rfl, rfl⟩
  simp [caretLine, spaceRun, caretRun, toList_append]

/-- C6: diagnostic rendering is total and a malformed span with
`end_column < start_column` degrades to an empty caret run: the caret
line is still produced (spaces, no carets, then the label) and
`display_errors` renders the diagnostic without any failure. -/
theorem display_errors_malformed_span (span : Span) (label msg : String)
    (h : span.end_column < span.start_column) :
    caretRun span = "" ∧
    caretLine span label =
      spaceRun ((span.start_column + PROMPT.length) - 1) ++ " " ++ label ∧
    display_errors [{ is_from_user_code := true
                      spanned_messages := [{ span := some span, label := label }]
                      message := msg
                      help := []
                      evcxr_extra_hint := none
                      rendered := "" }] =
      [OutEvent.out (caretLine span label ++ "\n"), OutEvent.out (msg ++ "\n")] := by
  have hz : span.end_column - span.start_column = 0 := Nat.sub_eq_zero_of_le h.le
  have hrun : caretRun span = "" := by simp [caretRun, hz]
  refine ⟨hrun, ?_, ?_⟩
  · simp [caretLine, hrun]
  · simp [display_errors, displayError, renderSpanned]

/-- Witness for C6 at the concrete malformed span `(start=5, end=2)`. -/
theorem display_errors_malformed_span_witness :
    caretRun { start_column := 5, end_column := 2 } = "" ∧
    caretLine { start_column := 5, end_column := 2 } "L" =
      spaceRun ((5 + PROMPT.length) - 1) ++ " " ++ "L" ∧
    display_errors [{ is_from_user_code := true
                      spanned_messages :=
                        [{ span := some { start_column := 5, end_column := 2 }
                           label := "L" }]
                      message := "M"
                      help := []
                      evcxr_extra_hint := none
                      rendered := "" }] =
      [OutEvent.out (caretLine { start_column := 5, end_column := 2 } "L" ++ "\n"),
       OutEvent.out ("M" ++ "\n")] :=
  display_errors_malformed_span { start_column := 5, end_column := 2 } "L" "M"
    (by decide)

/-- C7: every accepted input line is appended to the in-memory history
(regardless of how its execution goes, since the engine oracle is
arbitrary), and saving then reloading yields exactly the submitted
lines in arrival order; in particular submitting `a`, `b`, `c` in one
session yields loaded history exactly `[a, b, c]` in the next. -/
theorem history_round_trip (engine : String → EngineResult) (ide_mode : Bool)
    (historyFile : List String) (lines : List String) :
    (mainSession ide_mode engine historyFile
        (lines.map ReadEvent.line ++ [ReadEvent.eof])).savedHistory =
      loadHistory historyFile ++ lines ∧
    loadHistory ((mainSession ide_mode engine []
        (lines.map ReadEvent.line ++ [ReadEvent.eof])).savedHistory) = lines ∧
    loadHistory ((mainSession ide_mode engine []
        [ReadEvent.line "a", ReadEvent.line "b", ReadEvent.line "c",
         ReadEvent.eof]).savedHistory) = ["a", "b", "c"] := by
  have key : ∀ file : List String,
      (mainSession ide_mode engine file
          (lines.map ReadEvent.line ++ [ReadEvent.eof])).savedHistory =
        file ++ lines := by
    intro file
    simp [mainSession, saveHistory, loadHistory, mainLoop_history_lines]
  refine ⟨key historyFile, by simpa [loadHistory] using key [], ?_⟩
  have habc := mainLoop_history_lines engine ide_mode ["a", "b", "c"] []
  simpa [mainSession, saveHistory, loadHistory] using habc

/-- C8: the forwarder task relays each received line followed by a
newline in FIFO order: its output is always the newline-terminated
image of a prefix of the received lines (so it stops silently at
channel closure or at the first failed write, with nothing else
emitted), and when every write succeeds it is exactly the received
lines, each with a newline, in order. -/
theorem send_output_fifo (writeOk : String → Bool) (lines : List String) :
    (∃ n, send_output writeOk lines = (lines.take n).map (fun l => l ++ "\n")) ∧
    ((∀ l ∈ lines, writeOk (l ++ "\n") = true) →
      send_output writeOk lines = lines.map (fun l => l ++ "\n")) := by
  induction lines with
  | nil => exact ⟨⟨0, rfl⟩, fun _ => rfl⟩
  | cons l rest ih =>
      constructor
      · by_cases hw : writeOk (l ++ "\n") = true
        · obtain ⟨n, hn⟩ := ih.1
          exact ⟨n + 1, by simp [send_output, hw, hn]⟩
        · exact ⟨0, by simp [send_output, hw]⟩
      · intro hall
        have hw : writeOk (l ++ "\n") = true := hall l (by simp)
        have hrest := ih.2 fun x hx => hall x (by simp [hx])
        simp [send_output, hw, hrest]

/-- Witness for C8: pushing `x` then `y` with all writes succeeding
prints `x` (with newline) strictly before `y`. -/
theorem send_output_fifo_witness :
    send_output (fun _ => true) ["x", "y"] = ["x\n", "y\n"] :=
  (send_output_fifo (fun _ => true) ["x", "y"]).2 (by simp)

/-- C9: in the main loop, an `Interrupted` read prints the notice and
continues with the remaining events; `Eof` terminates the loop
gracefully, ignoring the rest; any other line-editor error prints it
and breaks immediately; and a successfully read line never terminates
the loop itself — its exit is whatever the remaining events produce,
for every engine behaviour (so no snippet-evaluation error ends the
session). -/
theorem mainLoop_error_policy (engine : String → EngineResult) (ide_mode : Bool)
    (history : List String) (s msg : String) (rest : List ReadEvent) :
    mainLoop engine ide_mode history (ReadEvent.interrupted :: rest) =
      { history := (mainLoop engine ide_mode history rest).history
        output := OutEvent.out "CTRL-C\n" :: (mainLoop engine ide_mode history rest).output
        exit := (mainLoop engine ide_mode history rest).exit } ∧
    mainLoop engine ide_mode history (ReadEvent.eof :: rest) =
      { history := history, output := [], exit := LoopExit.eof } ∧
    mainLoop engine ide_mode history (ReadEvent.other msg :: rest) =
      { history := history
        output := [OutEvent.err ("Error: " ++ msg ++ "\n")]
        exit := LoopExit.fatal msg } ∧
    (mainLoop engine ide_mode history (ReadEvent.line s :: rest)).exit =
      (mainLoop engine ide_mode (history ++ [s]) rest).exit := by
  exact ⟨rfl, rfl, rfl, rfl⟩

/-- C10: with IDE mode enabled, the startup `:load_config` issued by
`Repl::new` itself goes through `execute`, so the construction output
already ends with one sentinel byte, and in a whole session that
output comes before all main-loop output — a host process observes one
extra sentinel before the response to its first submitted snippet. -/
theorem ide_mode_startup_sentinel (engine : String → EngineResult)
    (historyFile : List String) (events : List ReadEvent) :
    (mainSession true engine historyFile events).output =
      OutEvent.out banner :: (Repl.new true engine).output ++
        (mainLoop engine true (loadHistory historyFile) events).output ∧
    (Repl.new true engine).output =
      execute false (engine ":load_config") ++
        [OutEvent.out (sentinel (isOkResult (engine ":load_config")))] ∧
    sentinelCount (outText (Repl.new true engine).output) =
      sentinelCount (outText (execute false (engine ":load_config")))
        + 1 := by
  have h2 : (Repl.new true engine).output =
      execute false (engine ":load_config") ++
        [OutEvent.out (sentinel (isOkResult (engine ":load_config")))] := by
    simpa [Repl.new] using execute_true_split (engine ":load_config")
  refine ⟨rfl, h2, ?_⟩
  rw [h2, outText_append, sentinelCount_append]
  cases h : isOkResult (engine ":load_config") <;>
    simp [sentinel, outText] <;> decide

end Evcxr
